import Mathlib

/-!
Verification of the multithreaded TCP port scanner embedded in
`generate_password.py` (the `port_scanner_mt.py` section): the probe
function `scan_port`, the port enumeration and validation in `main`,
and the dispatch/aggregation loop of `main`.

The network environment is modelled explicitly: each probe invocation is
parametrised by a `ProbeEnv` recording what the socket layer does on that
call (what `connect_ex` returns or raises, whether `getservbyport`
succeeds, what `recv` yields, whether `decode` succeeds).  Machine-level
I/O effects are thereby turned into pure inputs, and `scan_port` becomes
a pure function of its arguments and the environment, translated
statement by statement from the source.
-/

namespace PortScanner

/-- The result dictionary built by `scan_port`: exactly the five keys
`port`, `status`, `service`, `banner`, `error` (statuses are the
strings `"open"`, `"closed"`, `"filtered"` as in the source). -/
structure ProbeResult where
  port : Nat
  status : String
  service : String
  banner : String
  error : String
deriving DecidableEq, Repr

/-- Outcome of the `s.connect_ex((target_ip, port))` call: it either
returns an integer error code (`0` on success), raises `socket.timeout`,
or raises some other exception whose `str` is `msg`. -/
inductive ConnectOutcome where
  | retCode (err : Nat)
  | timeoutExc
  | otherExc (msg : String)
deriving DecidableEq, Repr

/-- Outcome of the banner `s.recv(1024)` call: a byte string (possibly
empty), or a raised exception (read failure or timeout). -/
inductive RecvOutcome where
  | bytes (b : List Nat)
  | exc
deriving DecidableEq, Repr

/-- Outcome of `banner.decode(errors="replace")`: the decoded string, or
a raised exception (the source guards this call with its own handler). -/
inductive DecodeOutcome where
  | ok (s : String)
  | exc
deriving DecidableEq, Repr

/-- The socket-layer behaviour observed by one `scan_port` invocation. -/
structure ProbeEnv where
  connect : ConnectOutcome
  service : Option String
  recv : RecvOutcome
  decodeRes : DecodeOutcome
deriving DecidableEq, Repr

/-- A Python exception escaping the `try` block of `scan_port`:
`socket.timeout` or any other `Exception` with message `msg`. -/
inductive PyExc where
  | timeout
  | exc (msg : String)
deriving DecidableEq, Repr

/-- One hex digit, lower case, for the byte-repr fallback. -/
def hexDigit (n : Nat) : Char :=
  if n < 10 then Char.ofNat (48 + n) else Char.ofNat (87 + n)

/-- A printable rendering of one byte inside a Python bytes-repr. -/
def byteEscape (n : Nat) : String :=
  if n = 92 then "\\\\"
  else if n = 39 then "\\'"
  else if 32 ≤ n ∧ n ≤ 126 then String.mk [Char.ofNat n]
  else String.mk [Char.ofNat 92, Char.ofNat 120, hexDigit (n / 16 % 16), hexDigit (n % 16)]

/-- Model of Python `repr` on a bytes value, as used by the
`repr(banner)[:200]` decode fallback. -/
def bytesRepr (b : List Nat) : String :=
  "b" ++ "'" ++ String.join (b.map byteEscape) ++ "'"

/-- The dictionary `scan_port` builds on entry:
`{"port": port, "status": "closed", "service": "", "banner": "", "error": ""}`. -/
def initResult (port : Nat) : ProbeResult :=
  ⟨port, "closed", "", "", ""⟩

/-- The banner captured in the open branch of `scan_port`: empty unless
`do_banner` is set; on a `recv` exception (read failure or timeout) the
inner handler leaves it empty; an empty byte string (`if banner:`)
leaves it empty; otherwise the decoded text stripped of surrounding
whitespace, or, when decoding raises, `repr(banner)[:200]`. -/
def bannerValue (do_banner : Bool) (env : ProbeEnv) : String :=
  if do_banner then
    match env.recv with
    | .exc => ""
    | .bytes b =>
      if b.isEmpty then ""
      else
        match env.decodeRes with
        | .ok s => s.trim
        | .exc => (bytesRepr b).take 200
  else ""

/-- The `try` block of `scan_port`, line by line.  Returns the built
result together with a flag recording whether `s.close()` was executed,
or the exception that escaped the block.  Only `connect_ex` can raise
out of the block (the service lookup, the banner read and the decode are
each wrapped in their own inner handler in the source), and at that
point no field of `result` has been mutated yet and `s.close()` has not
run. -/
def scan_port_body (port : Nat) (do_banner : Bool) (env : ProbeEnv) :
    Except PyExc (ProbeResult × Bool) :=
  let result := initResult port
  match env.connect with
  | .timeoutExc => .error .timeout
  | .otherExc msg => .error (.exc msg)
  | .retCode err =>
    if err = 0 then
      .ok ({ result with
              status := "open",
              service := env.service.getD "",
              banner := bannerValue do_banner env }, true)
    else if err = 111 ∨ err = 10061 then
      .ok ({ result with status := "closed" }, true)
    else
      .ok ({ result with status := "filtered" }, true)

/-- `scan_port` with its two `except` handlers, instrumented: the second
component records whether the socket was closed before returning.
On `socket.timeout` the handler sets `status = "filtered"`; on any other
exception it sets `status = "filtered"` and `error = str(e)`; neither
handler closes the socket. -/
def scan_port_run (target_ip : String) (port : Nat) (timeout : ℚ)
    (do_banner : Bool) (env : ProbeEnv) : ProbeResult × Bool :=
  match scan_port_body port do_banner env with
  | .ok rb => rb
  | .error .timeout => ({ initResult port with status := "filtered" }, false)
  | .error (.exc msg) =>
      ({ initResult port with status := "filtered", error := msg }, false)

/-- The value `scan_port` returns to its caller. -/
def scan_port (target_ip : String) (port : Nat) (timeout : ℚ)
    (do_banner : Bool) (env : ProbeEnv) : ProbeResult :=
  (scan_port_run target_ip port timeout do_banner env).1

/-- Port validation and enumeration from `main`:
`start_port = max(1, args.start)`, `end_port = min(65535, args.end)`,
error when `start_port > end_port`, else `list(range(start_port, end_port + 1))`. -/
def enumeratePorts (s e : Int) : Option (List Nat) :=
  let start_port : Int := max 1 s
  let end_port : Int := min 65535 e
  if start_port > end_port then none
  else some (List.range' start_port.toNat (end_port.toNat + 1 - start_port.toNat))

/-- Clamping to [1, 65535] as the specification words it ("clamp both to
[1, 65535]") — for comparison against `enumeratePorts`, which only
raises `start` to 1 and only lowers `end` to 65535. -/
def clampSpec (p : Int) : Int := min 65535 (max 1 p)

/-- Final summary: results sorted ascending by port, and the running
open-port counter. -/
structure ScanSummary where
  results : List ProbeResult
  open_count : Nat
deriving DecidableEq, Repr

/-- Body of the `for fut in as_completed(futures)` loop: append the
completed result, and increment `open_count` when its status is
`"open"`. -/
def collectStep (acc : List ProbeResult × Nat) (res : ProbeResult) :
    List ProbeResult × Nat :=
  (acc.1 ++ [res], if res.status = "open" then acc.2 + 1 else acc.2)

/-- The collection loop over the delivered results, starting from
`results = []`, `open_count = 0`. -/
def collectLoop (delivered : List ProbeResult) : List ProbeResult × Nat :=
  delivered.foldl collectStep ([], 0)

/-- The comparison used by `sorted(results, key=lambda x: x["port"])`. -/
def portLE (a b : ProbeResult) : Prop := a.port ≤ b.port

instance : DecidableRel portLE := fun a b => Nat.decLe a.port b.port

instance : IsTotal ProbeResult portLE := ⟨fun a b => Nat.le_total a.port b.port⟩

instance : IsTrans ProbeResult portLE := ⟨fun _ _ _ h h' => Nat.le_trans h h'⟩

/-- `sorted(results, key=lambda x: x["port"])` (a stable sort on the
port key; stability is irrelevant here since ports are distinct). -/
def sortResults (l : List ProbeResult) : List ProbeResult :=
  List.insertionSort portLE l

/-- The stream of `ProbeResult`s the `as_completed` loop of `main`
consumes: the probes of `order` (the completion order of the futures) in
sequence, truncated after `k` loop iterations when a
`KeyboardInterrupt` arrives (`intr = some k`); the loop then stops
appending and `main` proceeds to finalisation with the partial
results. -/
def deliveredList (target_ip : String) (timeout : ℚ) (do_banner : Bool)
    (envOf : Nat → ProbeEnv) (order : List Nat) (intr : Option Nat) :
    List ProbeResult :=
  let completions := order.map fun p =>
    scan_port target_ip p timeout do_banner (envOf p)
  match intr with
  | none => completions
  | some k => completions.take k

/-- The scanning part of `main`.  `envOf p` is the socket-layer
behaviour seen by the probe of port `p`; `order` is the order in which
`as_completed` yields the futures (a permutation of the enumerated ports
in any real run, stated as a hypothesis of the theorems).  On an
invalid range `main` exits before submitting any probe; otherwise the
loop collects the delivered results and the counter, and the summary is
the port-sorted result list with that counter. -/
def runScan (target_ip : String) (s e : Int) (timeout : ℚ) (do_banner : Bool)
    (envOf : Nat → ProbeEnv) (order : List Nat) (intr : Option Nat) :
    Except String ScanSummary :=
  match enumeratePorts s e with
  | none => .error "Invalid port range"
  | some _ =>
    let rc := collectLoop (deliveredList target_ip timeout do_banner envOf order intr)
    .ok ⟨sortResults rc.1, rc.2⟩

/-! ### Probe-level lemmas -/

theorem scan_port_port_eq (ip : String) (port : Nat) (t : ℚ) (b : Bool)
    (env : ProbeEnv) : (scan_port ip port t b env).port = port := by
  rcases env with ⟨c, sv, rv, dc⟩
  cases c with
  | retCode err =>
    simp only [scan_port, scan_port_run, scan_port_body, initResult]
    split_ifs <;> rfl
  | timeoutExc => rfl
  | otherExc msg => rfl

/-- **C1.** Three-way classification of a probe: `connect_ex` returning
`0` (connection established) yields `"open"`; returning a
connection-refused code (111 or 10061) yields `"closed"`; a connect
timeout, any other connect-level exception, and any other nonzero code
all yield `"filtered"`; and every result's status is exactly one of the
three strings. -/
theorem scan_port_classification (ip : String) (port : Nat) (t : ℚ) (b : Bool)
    (env : ProbeEnv) :
    ((scan_port ip port t b env).status = "open" ∨
      (scan_port ip port t b env).status = "closed" ∨
      (scan_port ip port t b env).status = "filtered")
    ∧ (env.connect = .retCode 0 → (scan_port ip port t b env).status = "open")
    ∧ (∀ n, env.connect = .retCode n → n = 111 ∨ n = 10061 →
        (scan_port ip port t b env).status = "closed")
    ∧ (env.connect = .timeoutExc → (scan_port ip port t b env).status = "filtered")
    ∧ (∀ msg, env.connect = .otherExc msg →
        (scan_port ip port t b env).status = "filtered")
    ∧ (∀ n, env.connect = .retCode n → n ≠ 0 → n ≠ 111 → n ≠ 10061 →
        (scan_port ip port t b env).status = "filtered") := by
  rcases env with ⟨c, sv, rv, dc⟩
  cases c with
  | retCode err =>
    simp only [scan_port, scan_port_run, scan_port_body, initResult]
    by_cases h0 : err = 0
    · simp [h0]
    · by_cases hr : err = 111 ∨ err = 10061
      · simp [h0, hr]
        omega
      · simp [h0, hr]
        omega
  | timeoutExc => simp [scan_port, scan_port_run, scan_port_body, initResult]
  | otherExc msg => simp [scan_port, scan_port_run, scan_port_body, initResult]

theorem scan_port_classification_witness :
    (scan_port "host" 80 1 false ⟨.retCode 0, none, .exc, .exc⟩).status = "open" :=
  (scan_port_classification "host" 80 1 false
    ⟨.retCode 0, none, .exc, .exc⟩).2.1 rfl

/-- **C2.** Every exception escaping the `try` block is caught by the
handlers of `scan_port`: the probe still returns a `ProbeResult` (the
return type of `scan_port` is total, so no exception reaches the
caller), its status is `"filtered"`, and for an exception other than
`socket.timeout` the exception's message is recorded in the error
field. -/
theorem scan_port_no_propagation (ip : String) (port : Nat) (t : ℚ) (b : Bool)
    (env : ProbeEnv) :
    (∀ ex, scan_port_body port b env = .error ex →
      (scan_port ip port t b env).status = "filtered")
    ∧ (∀ msg, scan_port_body port b env = .error (.exc msg) →
        (scan_port ip port t b env).error = msg)
    ∧ scan_port_run ip port t b env =
        (scan_port ip port t b env, (scan_port_run ip port t b env).2) := by
  refine ⟨fun ex hex => ?_, fun msg hmsg => ?_, rfl⟩
  · rcases env with ⟨c, sv, rv, dc⟩
    cases c with
    | retCode err =>
      exfalso
      simp only [scan_port_body, initResult] at hex
      split_ifs at hex
    | timeoutExc => rfl
    | otherExc m =>
      simp only [scan_port, scan_port_run, scan_port_body, initResult]
  · rcases env with ⟨c, sv, rv, dc⟩
    cases c with
    | retCode err =>
      exfalso
      simp only [scan_port_body, initResult] at hmsg
      split_ifs at hmsg
    | timeoutExc => simp [scan_port_body] at hmsg
    | otherExc m =>
      simp only [scan_port_body, Except.error.injEq, PyExc.exc.injEq] at hmsg
      subst hmsg
      rfl

theorem scan_port_no_propagation_witness :
    (scan_port "host" 443 1 true ⟨.otherExc "boom", none, .exc, .exc⟩).status =
        "filtered"
    ∧ (scan_port "host" 443 1 true ⟨.otherExc "boom", none, .exc, .exc⟩).error =
        "boom" :=
  ⟨(scan_port_no_propagation "host" 443 1 true
      ⟨.otherExc "boom", none, .exc, .exc⟩).1 (.exc "boom") rfl,
    (scan_port_no_propagation "host" 443 1 true
      ⟨.otherExc "boom", none, .exc, .exc⟩).2.1 "boom" rfl⟩

/-- **C3, counterexample.** When `connect_ex` raises `socket.timeout`,
`scan_port` returns without ever executing `s.close()`: there is no
`finally` block and neither `except` handler closes the socket, so the
connection resource is not released before the probe returns. -/
theorem scan_port_close_counterexample :
    (scan_port_run "host" 80 1 false ⟨.timeoutExc, none, .exc, .exc⟩).2 = false :=
  rfl

/-- **C3, amended.** The socket is closed before returning exactly on
the exits where `connect_ex` returns an error code (success, refusal,
and other nonzero codes); on the exits taken through the exception
handlers (connect timeout, unexpected exception) it is not closed. -/
theorem scan_port_close_iff (ip : String) (port : Nat) (t : ℚ) (b : Bool)
    (env : ProbeEnv) :
    (scan_port_run ip port t b env).2 = true ↔
      ∃ n, env.connect = .retCode n := by
  rcases env with ⟨c, sv, rv, dc⟩
  cases c with
  | retCode err =>
    simp only [scan_port_run, scan_port_body, initResult]
    split_ifs <;> simp
  | timeoutExc => simp [scan_port_run, scan_port_body]
  | otherExc m => simp [scan_port_run, scan_port_body]

theorem scan_port_close_iff_witness :
    (scan_port_run "host" 80 1 false ⟨.retCode 0, none, .exc, .exc⟩).2 = true :=
  (scan_port_close_iff "host" 80 1 false
    ⟨.retCode 0, none, .exc, .exc⟩).mpr ⟨0, rfl⟩

/-- **C4.** A nonempty banner occurs only on an `"open"` status with
banner capture requested; and when the banner read raises (failure or
timeout) on an open port, the banner stays empty, the status stays
`"open"`, and no error value is produced. -/
theorem scan_port_banner_invariant (ip : String) (port : Nat) (t : ℚ) (b : Bool)
    (env : ProbeEnv) :
    ((scan_port ip port t b env).banner ≠ "" →
      (scan_port ip port t b env).status = "open" ∧ b = true)
    ∧ (env.connect = .retCode 0 → env.recv = .exc →
        (scan_port ip port t b env).banner = ""
        ∧ (scan_port ip port t b env).status = "open"
        ∧ (scan_port ip port t b env).error = "") := by
  rcases env with ⟨c, sv, rv, dc⟩
  cases c with
  | retCode err =>
    constructor
    · intro hb
      simp only [scan_port, scan_port_run, scan_port_body, initResult] at hb ⊢
      split_ifs at hb ⊢ with h0 hr
      · refine ⟨rfl, ?_⟩
        by_contra hbf
        simp only [Bool.not_eq_true] at hbf
        subst hbf
        simp [bannerValue] at hb
      · simp at hb
      · simp at hb
    · rintro hc rfl
      simp only [ConnectOutcome.retCode.injEq] at hc
      subst hc
      simp [scan_port, scan_port_run, scan_port_body, initResult, bannerValue]
  | timeoutExc =>
    constructor
    · intro hb; simp [scan_port, scan_port_run, scan_port_body, initResult] at hb
    · rintro h; simp at h
  | otherExc m =>
    constructor
    · intro hb; simp [scan_port, scan_port_run, scan_port_body, initResult] at hb
    · rintro h; simp at h

theorem scan_port_banner_invariant_witness :
    (scan_port "host" 22 1 true ⟨.retCode 0, none, .exc, .exc⟩).banner = ""
    ∧ (scan_port "host" 22 1 true ⟨.retCode 0, none, .exc, .exc⟩).status = "open"
    ∧ (scan_port "host" 22 1 true ⟨.retCode 0, none, .exc, .exc⟩).error = "" :=
  (scan_port_banner_invariant "host" 22 1 true
    ⟨.retCode 0, none, .exc, .exc⟩).2 rfl rfl

/-- **C9.** The returned record carries exactly the five fields of the
result dictionary — `port`, `status`, `service`, `banner`, `error`
(the full field set of `ProbeResult` by construction) — and its `port`
field always equals the `port` argument of the invocation. -/
theorem scan_port_result_shape (ip : String) (port : Nat) (t : ℚ) (b : Bool)
    (env : ProbeEnv) :
    scan_port ip port t b env =
      ProbeResult.mk port (scan_port ip port t b env).status
        (scan_port ip port t b env).service (scan_port ip port t b env).banner
        (scan_port ip port t b env).error := by
  have hp := scan_port_port_eq ip port t b env
  cases hres : scan_port ip port t b env with
  | mk p st sv bn er =>
    rw [hres] at hp
    simp only at hp
    rw [hp]

/-- **C10.** When `connect_ex` returns a nonzero code, the status is
`"closed"` iff that code is 111 or 10061 (the Unix/Windows
connection-refused codes); every other nonzero code yields
`"filtered"`. -/
theorem scan_port_refused_codes (ip : String) (port : Nat) (t : ℚ) (b : Bool)
    (env : ProbeEnv) (n : Nat) (hc : env.connect = .retCode n) (hn : n ≠ 0) :
    ((scan_port ip port t b env).status = "closed" ↔ n = 111 ∨ n = 10061)
    ∧ (¬(n = 111 ∨ n = 10061) →
        (scan_port ip port t b env).status = "filtered") := by
  rcases env with ⟨c, sv, rv, dc⟩
  simp only at hc
  subst hc
  simp only [scan_port, scan_port_run, scan_port_body, initResult]
  by_cases hr : n = 111 ∨ n = 10061
  · simp [hn, hr]
  · simp [hn, hr]

theorem scan_port_refused_codes_witness :
    (scan_port "host" 80 1 false ⟨.retCode 10061, none, .exc, .exc⟩).status =
        "closed" :=
  ((scan_port_refused_codes "host" 80 1 false ⟨.retCode 10061, none, .exc, .exc⟩
    10061 rfl (by decide)).1).mpr (Or.inr rfl)

/-! ### Enumerator lemmas -/

theorem enumeratePorts_eq_some (s e : Int) (l : List Nat)
    (h : enumeratePorts s e = some l) :
    max 1 s ≤ min 65535 e ∧
      l = List.range' (max 1 s).toNat
            ((min 65535 e).toNat + 1 - (max 1 s).toNat) := by
  simp only [enumeratePorts] at h
  split_ifs at h with hgt
  exact ⟨not_lt.mp hgt, (Option.some_inj.mp h).symm⟩

/-- **C5, counterexample.** The claim says both bounds are clamped into
[1, 65535], so for the request `start = 0`, `end = 0` both clamp to 1
and the enumerator should produce the singleton sequence `[1]`.  The
code only raises `start` (`max(1, start) = 1`) and only lowers `end`
(`min(65535, end) = 0`), sees `1 > 0`, and aborts with the
invalid-range error instead. -/
theorem enumeratePorts_clamp_counterexample :
    clampSpec 0 ≤ clampSpec 0 ∧ clampSpec 0 = 1
      ∧ enumeratePorts 0 0 ≠ some [1] ∧ enumeratePorts 0 0 = none := by
  decide

/-- **C5, amended.** The code raises the requested start to at least 1
and lowers the requested end to at most 65535 (it does not pull a start
above 65535 down, nor an end below 1 up).  If the adjusted start
exceeds the adjusted end, the run fails with the invalid-range error
before any connection attempt (for every environment and completion
order); otherwise the enumerated ports are exactly the integers from
the adjusted start to the adjusted end inclusive, strictly ascending,
with no gaps and no duplicates. -/
theorem enumeratePorts_spec (s e : Int) :
    (enumeratePorts s e = none ↔ min 65535 e < max 1 s)
    ∧ (∀ l, enumeratePorts s e = some l →
        l.Pairwise (· < ·)
        ∧ ∀ p : Nat, p ∈ l ↔ max 1 s ≤ (p : Int) ∧ (p : Int) ≤ min 65535 e)
    ∧ (enumeratePorts s e = none →
        ∀ (ip : String) (t : ℚ) (b : Bool) (envOf : Nat → ProbeEnv)
          (order : List Nat) (intr : Option Nat),
          runScan ip s e t b envOf order intr = .error "Invalid port range") := by
  refine ⟨?_, fun l hl => ?_, fun hn ip t b envOf order intr => ?_⟩
  · simp only [enumeratePorts]
    split_ifs with hgt
    · simpa using hgt
    · simp only [reduceCtorEq, false_iff]
      exact not_lt.mpr (not_lt.mp hgt)
  · obtain ⟨hle, rfl⟩ := enumeratePorts_eq_some s e l hl
    refine ⟨List.pairwise_lt_range' _ _, fun p => ?_⟩
    rw [List.mem_range'_1]
    have h1 : (1 : Int) ≤ max 1 s := le_max_left 1 s
    omega
  · simp only [runScan, hn]

theorem enumeratePorts_spec_witness :
    ([1, 2, 3] : List Nat).Pairwise (· < ·)
    ∧ ∀ p : Nat, p ∈ ([1, 2, 3] : List Nat) ↔
        max 1 (1 : Int) ≤ (p : Int) ∧ (p : Int) ≤ min 65535 3 :=
  (enumeratePorts_spec 1 3).2.1 [1, 2, 3] (by decide)

/-! ### Dispatcher and aggregation lemmas -/

theorem foldl_collectStep (l : List ProbeResult) (acc : List ProbeResult)
    (n : Nat) :
    l.foldl collectStep (acc, n) =
      (acc ++ l, n + l.countP fun r => r.status == "open") := by
  induction l generalizing acc n with
  | nil => simp
  | cons x xs ih =>
    simp only [List.foldl_cons, collectStep]
    rw [ih]
    by_cases h : x.status = "open"
    · simp [List.countP_cons, h]
      omega
    · simp [List.countP_cons, h]

theorem collectLoop_eq (l : List ProbeResult) :
    collectLoop l = (l, l.countP fun r => r.status == "open") := by
  simpa using foldl_collectStep l [] 0

theorem sortResults_perm (l : List ProbeResult) : (sortResults l).Perm l :=
  List.perm_insertionSort portLE l

theorem sortResults_sorted (l : List ProbeResult) :
    (sortResults l).Pairwise portLE :=
  List.sorted_insertionSort portLE l

theorem runScan_eq (ip : String) (s e : Int) (t : ℚ) (b : Bool)
    (envOf : Nat → ProbeEnv) (order : List Nat) (intr : Option Nat)
    (ports : List Nat) (h : enumeratePorts s e = some ports) :
    runScan ip s e t b envOf order intr =
      .ok ⟨sortResults (deliveredList ip t b envOf order intr),
           (deliveredList ip t b envOf order intr).countP
             fun r => r.status == "open"⟩ := by
  simp only [runScan, h, collectLoop_eq]

/-- **C8.** In every run, interrupted or not, the reported
`open_count` equals the number of collected results whose status is
`"open"` (stated over the summary's result list, a permutation of the
collected list). -/
theorem runScan_open_count (ip : String) (s e : Int) (t : ℚ) (b : Bool)
    (envOf : Nat → ProbeEnv) (order : List Nat) (intr : Option Nat)
    (summ : ScanSummary) (h : runScan ip s e t b envOf order intr = .ok summ) :
    summ.open_count = summ.results.countP fun r => r.status == "open" := by
  cases hp : enumeratePorts s e with
  | none => rw [runScan, hp] at h; exact absurd h (by simp)
  | some ports =>
    rw [runScan_eq ip s e t b envOf order intr ports hp] at h
    injection h with h
    subst h
    exact ((sortResults_perm _).countP_eq _).symm

theorem runScan_open_count_witness :
    (ScanSummary.mk
        [⟨1, "open", "", "", ""⟩, ⟨2, "open", "", "", ""⟩] 2).open_count =
      (ScanSummary.mk
        [⟨1, "open", "", "", ""⟩, ⟨2, "open", "", "", ""⟩] 2).results.countP
        (fun r => r.status == "open") :=
  runScan_open_count "h" 1 2 1 false (fun _ => ⟨.retCode 0, none, .exc, .exc⟩)
    [2, 1] none _ (by rfl)

/-- **C7.** On an uninterrupted run over a valid range, the summary's
port sequence is exactly the enumerated range: every port of the range
appears in exactly one result, and the results are sorted strictly
ascending by port with no duplicates. -/
theorem runScan_uninterrupted (ip : String) (s e : Int) (t : ℚ) (b : Bool)
    (envOf : Nat → ProbeEnv) (order : List Nat) (ports : List Nat)
    (hports : enumeratePorts s e = some ports) (horder : order.Perm ports) :
    ∃ summ : ScanSummary,
      runScan ip s e t b envOf order none = .ok summ
      ∧ (summ.results.map fun r => r.port) = ports
      ∧ summ.results.Pairwise (fun a b => a.port < b.port)
      ∧ ∀ p ∈ ports, (summ.results.countP fun r => r.port == p) = 1 := by
  obtain ⟨hle, hpr⟩ := enumeratePorts_eq_some s e ports hports
  set d := deliveredList ip t b envOf order none with hd
  have hmapd : (d.map fun r => r.port) = order := by
    rw [hd]
    simp only [deliveredList, List.map_map]
    exact List.map_id'' (fun p => scan_port_port_eq ip p t b (envOf p)) order
  have hperm : ((sortResults d).map fun r => r.port).Perm ports := by
    have h1 := (sortResults_perm d).map fun r => r.port
    rw [hmapd] at h1
    exact h1.trans horder
  have hsorted : ((sortResults d).map fun r => r.port).Pairwise (· ≤ ·) := by
    rw [List.pairwise_map]
    exact sortResults_sorted d
  have hports_lt : ports.Pairwise (· < ·) := by
    rw [hpr]
    exact List.pairwise_lt_range' _ _
  have hports_le : ports.Pairwise (· ≤ ·) := hports_lt.imp le_of_lt
  have hmap : ((sortResults d).map fun r => r.port) = ports :=
    List.eq_of_perm_of_sorted hperm hsorted hports_le
  have hlt : (sortResults d).Pairwise fun a b => a.port < b.port := by
    have h2 := hports_lt
    rw [← hmap] at h2
    exact List.pairwise_map.mp h2
  have hnd : ports.Nodup := hports_lt.imp ne_of_lt
  refine ⟨⟨sortResults d, d.countP fun r => r.status == "open"⟩,
    runScan_eq ip s e t b envOf order none ports hports, hmap, hlt, ?_⟩
  intro p hp
  have h1 : ports.count p = 1 := List.count_eq_one_of_mem hnd hp
  rw [← hmap, List.count_eq_countP, List.countP_map] at h1
  exact h1

theorem runScan_uninterrupted_witness :
    ∃ summ : ScanSummary,
      runScan "h" 1 3 1 false (fun _ => ⟨.retCode 111, none, .exc, .exc⟩)
          [3, 1, 2] none = .ok summ
      ∧ (summ.results.map fun r => r.port) = [1, 2, 3]
      ∧ summ.results.Pairwise (fun a b => a.port < b.port)
      ∧ ∀ p ∈ ([1, 2, 3] : List Nat),
          (summ.results.countP fun r => r.port == p) = 1 :=
  runScan_uninterrupted "h" 1 3 1 false
    (fun _ => ⟨.retCode 111, none, .exc, .exc⟩)
    [3, 1, 2] [1, 2, 3] (by decide) (by decide)

/-- **C6.** Whenever a `KeyboardInterrupt` arrives mid-run — any valid
range, any completion order, interrupt after any number `k` of loop
iterations — the run still finalises normally (`Except.ok`: cancellation
is never re-raised as a failure), every result already collected appears
in the final summary (none discarded), the summary is sorted by port and
holds exactly the collected results (`min k ports.length` of them); in
particular, in the spec's scenario of a 5-port run interrupted after
`2 ≤ k ≤ 5` completions, the summary holds between 2 and 5 results. -/
theorem runScan_cancellation (ip : String) (s e : Int) (t : ℚ) (b : Bool)
    (envOf : Nat → ProbeEnv) (order : List Nat) (ports : List Nat) (k : Nat)
    (hports : enumeratePorts s e = some ports) (horder : order.Perm ports) :
    ∃ summ : ScanSummary,
      runScan ip s e t b envOf order (some k) = .ok summ
      ∧ (∀ r ∈ deliveredList ip t b envOf order (some k), r ∈ summ.results)
      ∧ summ.results.Pairwise portLE
      ∧ summ.results.length = min k ports.length
      ∧ (ports.length = 5 → 2 ≤ k → k ≤ 5 →
          2 ≤ summ.results.length ∧ summ.results.length ≤ 5) := by
  have hOlen : order.length = ports.length := horder.length_eq
  set d := deliveredList ip t b envOf order (some k) with hd
  have hdlen : d.length = min k ports.length := by
    rw [hd]
    simp only [deliveredList, List.length_take, List.length_map, hOlen]
  have hslen : (sortResults d).length = min k ports.length :=
    (sortResults_perm d).length_eq.trans hdlen
  refine ⟨⟨sortResults d, d.countP fun r => r.status == "open"⟩,
    runScan_eq ip s e t b envOf order (some k) ports hports, ?_,
    sortResults_sorted d, hslen, ?_⟩
  · intro r hr
    exact ((sortResults_perm d).mem_iff).mpr hr
  · intro h5 hk2 hk5
    constructor
    · show 2 ≤ (sortResults d).length
      omega
    · show (sortResults d).length ≤ 5
      omega

theorem runScan_cancellation_witness :
    ∃ summ : ScanSummary,
      runScan "h" 1 5 1 false (fun _ => ⟨.timeoutExc, none, .exc, .exc⟩)
          [5, 4, 3, 2, 1] (some 2) = .ok summ
      ∧ (∀ r ∈ deliveredList "h" 1 false
            (fun _ => ⟨.timeoutExc, none, .exc, .exc⟩) [5, 4, 3, 2, 1] (some 2),
          r ∈ summ.results)
      ∧ summ.results.Pairwise portLE
      ∧ summ.results.length = min 2 ([1, 2, 3, 4, 5] : List Nat).length
      ∧ (([1, 2, 3, 4, 5] : List Nat).length = 5 → 2 ≤ 2 → 2 ≤ 5 →
          2 ≤ summ.results.length ∧ summ.results.length ≤ 5) :=
  runScan_cancellation "h" 1 5 1 false
    (fun _ => ⟨.timeoutExc, none, .exc, .exc⟩)
    [5, 4, 3, 2, 1] [1, 2, 3, 4, 5] 2 (by decide) (by decide)

end PortScanner
